import Mathlib

/-!
Verification development for the cache-build coordinator and streaming
export generator of the WorldHistoricalGazetteer website repository
(src/api/download_file.py, src/api/views_entity.py).  Python code is
shallowly embedded: pure helpers become Lean functions, the redis
coordination store becomes an explicit association list, filesystem
effects become explicit record states, and Python exceptions become
Except / Option values or explicit flags.
-/

namespace WHG

/-! ## Key derivation — FileCache static methods
    (src/api/download_file.py, lines 32-47 and 94-96).
    `CACHE_DIR` is `os.path.join(settings.MEDIA_ROOT, 'downloads')`; it is kept
    abstract as a `cacheDir` parameter.  `os.path.join(CACHE_DIR, name)` with a
    relative `name` inserts a single separator. -/

def get_cache_path (cacheDir objType objId filetype : String) : String :=
  let ext := if filetype = "tsv" then "tsv.gz" else "lpf.gz"
  cacheDir ++ "/whg_" ++ objType ++ "_" ++ objId ++ "." ++ ext

def get_build_lock_key (objType objId filetype : String) : String :=
  filetype ++ "_build_lock:" ++ objType ++ ":" ++ objId

def get_build_task_key (objType objId filetype : String) : String :=
  filetype ++ "_build_task:" ++ objType ++ ":" ++ objId

def get_last_rebuild_key (objType objId filetype : String) : String :=
  filetype ++ "_last_rebuild:" ++ objType ++ ":" ++ objId

def get_pending_rebuild_key (objType objId filetype : String) : String :=
  filetype ++ "_pending_rebuild:" ++ objType ++ ":" ++ objId

/-! ## Filetype normalization in the HTTP layer
    (src/api/views_entity.py, lines 95-97): the query parameter is lowercased
    and any value outside `lpf`/`tsv` is silently replaced by `lpf`. -/

/-- ASCII model of Python's `str.lower()` (the filetype values involved are
    ASCII). -/
def pyLowerChar (c : Char) : Char :=
  if 'A' ≤ c ∧ c ≤ 'Z' then Char.ofNat (c.toNat + 32) else c

def pyLower (s : String) : String :=
  String.mk (s.data.map pyLowerChar)

def normalize_filetype (raw : String) : String :=
  let ft := pyLower raw
  if ft = "lpf" ∨ ft = "tsv" then ft else "lpf"

/-- All five derived keys for one (entity-type, id, format) triple, as the
    source actually produces them: total, never failing. -/
def derive_keys_impl (cacheDir objType objId filetype : String) :
    Except String (String × String × String × String × String) :=
  Except.ok
    (get_cache_path cacheDir objType objId filetype,
     get_build_lock_key objType objId filetype,
     get_build_task_key objType objId filetype,
     get_last_rebuild_key objType objId filetype,
     get_pending_rebuild_key objType objId filetype)

/-- Stated from the spec's words for comparison (spec 4.1: "no failure modes
    beyond rejecting an unrecognized format (caller error)"): a key derivation
    that fails on any format outside the recognized set. -/
def derive_keys_claim (cacheDir objType objId filetype : String) :
    Except String (String × String × String × String × String) :=
  if filetype = "lpf" ∨ filetype = "tsv" then
    derive_keys_impl cacheDir objType objId filetype
  else
    Except.error ("Unrecognized format: " ++ filetype)

/-! ## Field cleaning for table rows
    (src/api/download_file.py, lines 437-441):
    `field.replace('\t', ' ').replace('\n', ' ').replace('\r', '').strip()`.
    Python strings are embedded as `List Char`; `str.replace` with a
    single-character pattern rewrites every occurrence of that character, and
    `str.strip()` drops leading and trailing whitespace. -/

def pyReplaceChar (c : Char) (r : List Char) (s : List Char) : List Char :=
  (s.map (fun x => if x = c then r else [x])).flatten

/-- ASCII whitespace recognized by Python's `str.strip()`. -/
def pyIsSpace (c : Char) : Bool :=
  c = ' ' ∨ c = '\t' ∨ c = '\n' ∨ c = '\r' ∨ c = '\x0b' ∨ c = '\x0c'

def pyStrip (s : List Char) : List Char :=
  ((s.dropWhile pyIsSpace).reverse.dropWhile pyIsSpace).reverse

/-- The row-field cleaning of the source: tab to space, LF to space, CR
    removed, then stripped. -/
def clean_field (s : List Char) : List Char :=
  pyStrip (pyReplaceChar '\r' [] (pyReplaceChar '\n' [' '] (pyReplaceChar '\t' [' '] s)))

/-- Stated from the claim's words for comparison: tab to space, CR removed,
    LF removed, then trimmed. -/
def clean_field_claim (s : List Char) : List Char :=
  pyStrip (pyReplaceChar '\r' [] (pyReplaceChar '\n' [] (pyReplaceChar '\t' [' '] s)))

/-- Single-pass restatement of what the source's cleaning does to each
    character: CR is dropped, tab and LF each become a single space, all other
    characters are kept; the result is then stripped. -/
def clean_field_amended (s : List Char) : List Char :=
  pyStrip (s.filterMap (fun c =>
    if c = '\r' then none
    else if c = '\t' ∨ c = '\n' then some ' '
    else some c))

theorem pyReplaceChar_cons (c : Char) (r : List Char) (x : Char) (s : List Char) :
    pyReplaceChar c r (x :: s) = (if x = c then r else [x]) ++ pyReplaceChar c r s := by
  simp [pyReplaceChar]

theorem clean_chain_eq_filterMap (s : List Char) :
    pyReplaceChar '\r' [] (pyReplaceChar '\n' [' '] (pyReplaceChar '\t' [' '] s)) =
      s.filterMap (fun c =>
        if c = '\r' then none
        else if c = '\t' ∨ c = '\n' then some ' '
        else some c) := by
  induction s with
  | nil => rfl
  | cons x xs ih =>
    by_cases hx : x = '\t'
    · subst hx
      simp [pyReplaceChar_cons, List.filterMap_cons, ih]
    · by_cases hn : x = '\n'
      · subst hn
        simp [pyReplaceChar_cons, List.filterMap_cons, ih]
      · by_cases hr : x = '\r'
        · subst hr
          simp [pyReplaceChar_cons, List.filterMap_cons, ih]
        · simp [pyReplaceChar_cons, List.filterMap_cons, hx, hn, hr, ih]

/-! ## Bounded-size geometry encoding for table rows
    (src/api/download_file.py, lines 286-327).  A geometry is abstracted by
    the outcomes of the GEOS operations the code performs on it: `parseOk`
    is whether the operations inside the outer try succeed (`GEOSGeometry`
    construction and the wkt accesses), `simplifiedWkt` is the simplified
    geometry's WKT with `none` meaning `simplify` raised, and
    `pointOnSurfaceWkt` is `none` when the `point_on_surface` attribute is
    unavailable (the `hasattr` test fails). -/

def MAX_WKT_LENGTH : Nat := 10000

structure GeosGeom where
  geomType : String
  parseOk : Bool
  fullWkt : String
  simplifiedWkt : Option String
  pointOnSurfaceWkt : Option String
  centroidWkt : String
deriving DecidableEq, Repr

def complexTypes : List String := ["Polygon", "MultiPolygon", "LineString", "MultiLineString"]

/-- The geowkt derivation of the source (lines 286-327): full WKT when within
    budget; otherwise simplified WKT when within budget; otherwise
    point-on-surface (centroid when unavailable); centroid directly when
    simplification raises; `POINT(lon lat)` or empty on any outer
    exception. -/
def encode_geowkt (g : GeosGeom) (lon lat : String) : String :=
  if g.parseOk = false then
    if lon ≠ "" ∧ lat ≠ "" then "POINT(" ++ lon ++ " " ++ lat ++ ")" else ""
  else if g.geomType ∈ complexTypes then
    if MAX_WKT_LENGTH < g.fullWkt.length then
      match g.simplifiedWkt with
      | some sw =>
          if sw.length ≤ MAX_WKT_LENGTH then sw
          else
            match g.pointOnSurfaceWkt with
            | some p => p
            | none => g.centroidWkt
      | none => g.centroidWkt
    else g.fullWkt
  else g.fullWkt

/-- Stated from the claim's words for comparison: identical except that a
    simplification failure also falls back to point-on-surface first
    (centroid only if unavailable). -/
def encode_geowkt_claim (g : GeosGeom) (lon lat : String) : String :=
  if g.parseOk = false then
    if lon ≠ "" ∧ lat ≠ "" then "POINT(" ++ lon ++ " " ++ lat ++ ")" else ""
  else if g.geomType ∈ complexTypes then
    if MAX_WKT_LENGTH < g.fullWkt.length then
      match g.simplifiedWkt with
      | some sw =>
          if sw.length ≤ MAX_WKT_LENGTH then sw
          else
            match g.pointOnSurfaceWkt with
            | some p => p
            | none => g.centroidWkt
      | none =>
          match g.pointOnSurfaceWkt with
          | some p => p
          | none => g.centroidWkt
    else g.fullWkt
  else g.fullWkt

/-- A WKT string longer than the 10000-character budget. -/
def bigWkt : String := String.mk (List.replicate 10001 'P')

theorem bigWkt_length : bigWkt.length = 10001 := by
  show (List.replicate 10001 'P').length = 10001
  exact List.length_replicate 10001 'P'

/-- C5 counterexample: a Polygon whose full WKT exceeds the budget and whose
    simplification raises, while point-on-surface is available and differs
    from the centroid: the source falls back directly to the centroid, while
    the claim says the fallback is point-on-surface when available. -/
theorem encode_geowkt_simplify_failure_counterexample :
    encode_geowkt ⟨"Polygon", true, bigWkt, none, some "POINT(1 1)", "POINT(2 2)"⟩ "" ""
        = "POINT(2 2)" ∧
      encode_geowkt_claim ⟨"Polygon", true, bigWkt, none, some "POINT(1 1)", "POINT(2 2)"⟩ "" ""
        = "POINT(1 1)" ∧
      ("POINT(2 2)" : String) ≠ "POINT(1 1)" := by
  refine ⟨?_, ?_, by decide⟩ <;>
    simp [encode_geowkt, encode_geowkt_claim, complexTypes, bigWkt_length, MAX_WKT_LENGTH]

/-- C5 amended: for a complex first geometry, full WKT within the budget is
    used as is; over budget, the simplified WKT is used when itself within
    budget; when the simplified WKT is also over budget the fallback is
    point-on-surface, or centroid if unavailable; when simplification raises
    the fallback is the centroid directly; and any outer encoding exception
    degrades to `POINT(lon lat)` when both coordinates are known, else the
    empty string. -/
theorem encode_geowkt_policy (g : GeosGeom) (lon lat : String) :
    (g.parseOk = true → g.geomType ∈ complexTypes →
      ((g.fullWkt.length ≤ MAX_WKT_LENGTH → encode_geowkt g lon lat = g.fullWkt) ∧
       (∀ sw, g.simplifiedWkt = some sw → MAX_WKT_LENGTH < g.fullWkt.length →
          sw.length ≤ MAX_WKT_LENGTH → encode_geowkt g lon lat = sw) ∧
       (∀ sw, g.simplifiedWkt = some sw → MAX_WKT_LENGTH < g.fullWkt.length →
          MAX_WKT_LENGTH < sw.length →
          encode_geowkt g lon lat = g.pointOnSurfaceWkt.getD g.centroidWkt) ∧
       (g.simplifiedWkt = none → MAX_WKT_LENGTH < g.fullWkt.length →
          encode_geowkt g lon lat = g.centroidWkt))) ∧
    (g.parseOk = false → encode_geowkt g lon lat =
      if lon ≠ "" ∧ lat ≠ "" then "POINT(" ++ lon ++ " " ++ lat ++ ")" else "") := by
  constructor
  · intro hp hc
    refine ⟨?_, ?_, ?_, ?_⟩
    · intro hlen
      simp [encode_geowkt, hp, hc, Nat.not_lt.mpr hlen]
    · intro sw hsw hbig hsmall
      simp [encode_geowkt, hp, hc, hbig, hsw, Nat.not_lt.mpr hsmall]
    · intro sw hsw hbig hsmall
      cases hpos : g.pointOnSurfaceWkt <;>
        simp [encode_geowkt, hp, hc, hbig, hsw, Nat.not_le.mpr hsmall, hpos, Option.getD]
    · intro hsw hbig
      simp [encode_geowkt, hp, hc, hbig, hsw]
  · intro hp
    simp [encode_geowkt, hp]

/-- C5 witness: the amended policy applied to a concrete over-budget Polygon
    whose simplified encoding fits the budget (spec Scenario A). -/
theorem encode_geowkt_policy_witness :
    encode_geowkt ⟨"Polygon", true, bigWkt, some "POINT(5 5)", some "POINT(1 1)", "POINT(2 2)"⟩ "" ""
      = "POINT(5 5)" :=
  ((encode_geowkt_policy
      ⟨"Polygon", true, bigWkt, some "POINT(5 5)", some "POINT(1 1)", "POINT(2 2)"⟩ "" "").1
    rfl (by decide)).2.1 "POINT(5 5)" rfl
    (by rw [bigWkt_length]; decide) (by decide)

/-! ## title_source / title_uri extraction for table rows
    (src/api/download_file.py, lines 395-402).  A link is abstracted by the
    two fields the code reads; `link.get(..., '')` defaults are the empty
    string. -/

structure LinkObj where
  linkType : String
  identifier : String
deriving DecidableEq, Repr

/-- The source's loop: both fields start empty; on the first link typed
    primaryTopicOf only `title_uri` is assigned before the break. -/
def extract_title_fields : List LinkObj → String × String
  | [] => ("", "")
  | l :: rest =>
      if l.linkType = "primaryTopicOf" then ("", l.identifier)
      else extract_title_fields rest

/-- The first primaryTopicOf link's identifier, or empty when none exists. -/
def first_primary_topic_uri : List LinkObj → String
  | [] => ""
  | l :: rest =>
      if l.linkType = "primaryTopicOf" then l.identifier
      else first_primary_topic_uri rest

/-- C8 counterexample: with a single primaryTopicOf link carrying a non-empty
    identifier, the source leaves title_source empty while filling title_uri,
    refuting the claim that both columns are taken from the first such link
    and are empty only when no such link exists. -/
theorem extract_title_fields_counterexample :
    extract_title_fields [⟨"primaryTopicOf", "http://example.org/place/1"⟩]
        = ("", "http://example.org/place/1") ∧
      ("http://example.org/place/1" : String) ≠ "" := by
  exact ⟨by decide, by decide⟩

/-- C8 amended: title_uri is taken from the identifier of the first link
    whose type is primaryTopicOf (empty when none exists); title_source is
    never populated and is always empty. -/
theorem extract_title_fields_amended (links : List LinkObj) :
    extract_title_fields links = ("", first_primary_topic_uri links) := by
  induction links with
  | nil => rfl
  | cons l rest ih =>
    by_cases h : l.linkType = "primaryTopicOf" <;>
      simp [extract_title_fields, first_primary_topic_uri, h, ih]

/-! ## LPF streaming preamble and in-stream rejection
    (src/api/download_file.py, lines 171-217).  The chunks are the successive
    arguments passed to `write_and_yield` before gzip compression; Python's
    `json.dumps` with its default `ensure_ascii=True` is embedded for string
    payloads. -/

def hexDigit (n : Nat) : Char :=
  if n < 10 then Char.ofNat ('0'.toNat + n) else Char.ofNat ('a'.toNat + (n - 10))

def hex4 (n : Nat) : String :=
  String.mk [hexDigit (n / 4096 % 16), hexDigit (n / 256 % 16),
             hexDigit (n / 16 % 16), hexDigit (n % 16)]

def jsonEscapeChar (c : Char) : String :=
  if c = '"' then "\\\""
  else if c = '\\' then "\\\\"
  else if c.toNat < 0x20 ∨ 0x7f ≤ c.toNat then "\\u" ++ hex4 c.toNat
  else String.singleton c

def json_dumps_str (s : String) : String :=
  "\"" ++ String.join (s.data.map jsonEscapeChar) ++ "\""

def licence_text : String :=
  "Unless specified otherwise, all content created for or uploaded to the World Historical Gazetteer — including editorial content, documentation, images, and contributed datasets and collections — is licensed under a Creative Commons Attribution-NonCommercial 4.0 International License. Externally hosted datasets and content that are linked to by WHG remain under the copyrights and licenses specified by their original contributors."

def lpf_context_chunk : String :=
  "\x7b\"@context\":\"https://raw.githubusercontent.com/LinkedPasts/linked-places/master/linkedplaces-context-v1.1.jsonld\",\"type\":\"FeatureCollection\""

def dataset_collection_error_chunk : String :=
  "],\"error\":\x7b\"message\":\"Dataset collections may not be downloaded. Please download each constituent dataset individually.\"\x7d\x7d"

def unsupported_lpf_error_chunk : String :=
  "],\"error\":\x7b\"message\":\"LPF export by streaming is only supported for datasets and place collections.\"\x7d\x7d"

/-- The object being exported, abstracted by the attributes the LPF path
    reads: `citation_csl` already serialized by `json.dumps` (`none` when the
    attribute is missing or falsy), and `collection_class`. -/
structure LpfObj where
  citationJson : Option String
  collectionClass : String
deriving DecidableEq, Repr

/-- The chunks written before the features array is opened: context line,
    optional citation, license. -/
def lpf_head (obj : LpfObj) : List String :=
  [lpf_context_chunk] ++
    (match obj.citationJson with
     | some c => [",\"citation\":" ++ c]
     | none => []) ++
    [",\"license\":" ++ json_dumps_str licence_text]

def lpf_preamble (obj : LpfObj) : List String :=
  lpf_head obj ++ [",\"features\":["]

/-- Comma-joined per-record chunks: the loop yields "," before every record
    but the first. -/
def featureChunks : List String → List String
  | [] => []
  | f :: fs => f :: fs.flatMap (fun x => [",", x])

/-- The full LPF chunk sequence of stream_live (lines 171-217): preamble,
    then either the records followed by the closing brackets, or one of the
    two in-stream error payloads. -/
def stream_lpf_chunks (objType : String) (obj : LpfObj) (features : List String) :
    List String :=
  lpf_preamble obj ++
    (if objType = "dataset" then featureChunks features ++ ["]", "\x7d"]
     else if objType = "collection" ∧ obj.collectionClass = "dataset" then
       [dataset_collection_error_chunk]
     else if objType = "collection" ∧ obj.collectionClass = "place" then
       featureChunks features ++ ["]", "\x7d"]
     else [unsupported_lpf_error_chunk])

theorem string_append_assoc (a b c : String) : a ++ b ++ c = a ++ (b ++ c) := by
  apply String.ext
  simp [String.data_append, List.append_assoc]

theorem string_join_append (xs ys : List String) :
    String.join (xs ++ ys) = String.join xs ++ String.join ys := by
  apply String.ext
  simp [String.join_eq, String.data_append]

/-- C7: for a collection whose collection_class is "dataset" requested in
    the feature (LPF) format, the emitted chunk sequence is the normal
    preamble followed by the single fixed error payload: the features array
    is closed empty, the error field carries the fixed message, the payload
    travels through the same chunk channel as ordinary content (the function
    returns a plain chunk list, not a transport error), no record is ever
    streamed (the output is independent of the record set), and the stream
    ends with that payload. -/
theorem lpf_dataset_collection_rejection (obj : LpfObj) (features : List String)
    (h : obj.collectionClass = "dataset") :
    stream_lpf_chunks "collection" obj features =
        lpf_preamble obj ++ [dataset_collection_error_chunk] ∧
      stream_lpf_chunks "collection" obj features =
        stream_lpf_chunks "collection" obj [] ∧
      ∃ a, String.join (stream_lpf_chunks "collection" obj features) =
        a ++ "\"features\":[],\"error\":\x7b\"message\":\"Dataset collections may not be downloaded. Please download each constituent dataset individually.\"\x7d\x7d" := by
  have hch : ∀ fs : List String, stream_lpf_chunks "collection" obj fs =
      lpf_preamble obj ++ [dataset_collection_error_chunk] := by
    intro fs
    simp [stream_lpf_chunks, h]
  refine ⟨hch features, by rw [hch features, hch ([] : List String)], ?_⟩
  refine ⟨String.join (lpf_head obj) ++ ",", ?_⟩
  have hsplit : lpf_preamble obj ++ [dataset_collection_error_chunk] =
      lpf_head obj ++ [",\"features\":[", dataset_collection_error_chunk] := by
    simp [lpf_preamble]
  have hj : String.join (lpf_head obj ++ [",\"features\":[", dataset_collection_error_chunk]) =
      String.join (lpf_head obj) ++ (",\"features\":[" ++ dataset_collection_error_chunk) := by
    apply String.ext
    simp [String.join_eq, String.data_append]
  have hcat : ",\"features\":[" ++ dataset_collection_error_chunk =
      "," ++ "\"features\":[],\"error\":\x7b\"message\":\"Dataset collections may not be downloaded. Please download each constituent dataset individually.\"\x7d\x7d" := by
    decide
  rw [hch features, hsplit, hj, hcat, ← string_append_assoc]

/-- C7 witness: the rejection theorem applied to a concrete dataset-class
    collection with a non-empty record set. -/
theorem lpf_dataset_collection_rejection_witness :
    stream_lpf_chunks "collection" ⟨none, "dataset"⟩ ["\x7b\"type\":\"Feature\"\x7d"] =
      lpf_preamble ⟨none, "dataset"⟩ ++ [dataset_collection_error_chunk] :=
  (lpf_dataset_collection_rejection ⟨none, "dataset"⟩ ["\x7b\"type\":\"Feature\"\x7d"] rfl).1

/-- C9 counterexample: the claim says every line feed is removed, but the
    source replaces a line feed with a single space: on the field "a\nb" the
    code produces "a b" while the claim's cleaning produces "ab". -/
theorem clean_field_linefeed_counterexample :
    clean_field ['a', '\n', 'b'] = ['a', ' ', 'b'] ∧
      clean_field_claim ['a', '\n', 'b'] = ['a', 'b'] ∧
      clean_field ['a', '\n', 'b'] ≠ clean_field_claim ['a', '\n', 'b'] := by
  refine ⟨by decide, by decide, by decide⟩

/-- C9 amended: before row assembly each tab character and each line feed is
    replaced with a single space, each carriage return is removed, and the
    result is trimmed of leading and trailing whitespace. -/
theorem clean_field_eq_amended (s : List Char) :
    clean_field s = clean_field_amended s := by
  unfold clean_field clean_field_amended
  rw [clean_chain_eq_filterMap]

/-- C10 counterexample: the claim says key derivation fails with a caller
    error for any format outside the recognized set, but on the unrecognized
    format "xml" the source produces keys: the cache path silently gets the
    lpf extension, the lock key embeds "xml" verbatim, and the HTTP layer
    silently normalizes "xml" to "lpf" instead of erroring, whereas the
    claim-following derivation returns an error. -/
theorem derive_keys_unrecognized_counterexample :
    ("xml" ≠ "lpf" ∧ "xml" ≠ "tsv") ∧
      (derive_keys_impl "/media/downloads" "dataset" "7" "xml").isOk = true ∧
      get_cache_path "/media/downloads" "dataset" "7" "xml" =
        "/media/downloads/whg_dataset_7.lpf.gz" ∧
      get_build_lock_key "dataset" "7" "xml" = "xml_build_lock:dataset:7" ∧
      normalize_filetype "xml" = "lpf" ∧
      derive_keys_claim "/media/downloads" "dataset" "7" "xml" =
        Except.error "Unrecognized format: xml" := by
  refine ⟨⟨by decide, by decide⟩, by decide, by decide, by decide, by decide, by rfl⟩

/-- C10 amended: key derivation is pure and total with no failure mode at
    all: an unrecognized format is never rejected; any format other than
    "tsv" yields the lpf cache-path extension, the coordination keys embed
    the format string verbatim, and the HTTP layer silently normalizes any
    unrecognized filetype to "lpf" rather than raising a caller error. -/
theorem derive_keys_total_amended (cd ot oi ft : String) :
    (derive_keys_impl cd ot oi ft).isOk = true ∧
      (ft ≠ "tsv" → get_cache_path cd ot oi ft = get_cache_path cd ot oi "lpf") ∧
      get_build_lock_key ot oi ft = ft ++ "_build_lock:" ++ ot ++ ":" ++ oi ∧
      (normalize_filetype ft = "lpf" ∨ normalize_filetype ft = "tsv") := by
  refine ⟨rfl, ?_, rfl, ?_⟩
  · intro h
    simp [get_cache_path, h]
  · unfold normalize_filetype
    by_cases h : pyLower ft = "lpf" ∨ pyLower ft = "tsv"
    · rcases h with h | h <;> simp [h]
    · simp [h]

/-- C10 witness: the amended theorem applied at the concrete unrecognized
    format "xml". -/
theorem derive_keys_total_amended_witness :
    get_cache_path "/media/downloads" "collection" "3" "xml" =
      get_cache_path "/media/downloads" "collection" "3" "lpf" :=
  (derive_keys_total_amended "/media/downloads" "collection" "3" "xml").2.1 (by decide)

/-! ## build_cache (src/api/download_file.py, lines 461-506).
    CPython's `io.open` validates its arguments before touching the
    filesystem: a mode containing 'b' combined with an `encoding` raises
    `ValueError("binary mode doesn't take an encoding argument")` and no file
    is created.  The filesystem and coordination state relevant to one key is
    a `BuildState`; the entity lookup is abstracted by `objExists`
    (`objects.get` raises DoesNotExist when false). -/

def pyOpenBinaryWithEncodingError : String :=
  "binary mode doesn't take an encoding argument"

def pyOpenCheck (mode : String) (encoding : Option String) : Except String Unit :=
  if mode.data.contains 'b' && encoding.isSome then
    Except.error pyOpenBinaryWithEncodingError
  else Except.ok ()

/-- Modelled from the spec: `TYPE_MAP` lives in api/schemas.py, which is not
    under src; per spec section 3 a CacheKey's entity_type ranges over
    dataset and collection, so those are the recognized keys. -/
def TYPE_MAP_keys : List String := ["dataset", "collection"]

/-- ASCII model of Python's `str.upper()` (filetype values are ASCII). -/
def pyUpperChar (c : Char) : Char :=
  if 'a' ≤ c ∧ c ≤ 'z' then Char.ofNat (c.toNat - 32) else c

def pyUpper (s : String) : String :=
  String.mk (s.data.map pyUpperChar)

structure BuildState where
  lockHeld : Bool
  taskId : Option String
  tmpExists : Bool
  canonicalExists : Bool
deriving DecidableEq, Repr

/-- Modelled external behavior: Django's DoesNotExist message rendered by
    `str(e)`. Its exact text is irrelevant to the claims. -/
def doesNotExistMsg (objType : String) : String :=
  objType ++ " matching query does not exist."

/-- The build task: store the task id, run the guarded body, and in all cases
    run the finally block releasing the lock and clearing the task id.  The
    open of the temporary cache file (line 482) passes mode 'wb' together
    with encoding 'utf-8'. -/
def build_cache (objType objId filetype taskId : String) (objExists : Bool)
    (st : BuildState) : String × BuildState :=
  -- FileCache.store_build_task_id
  let st1 : BuildState := { st with taskId := some taskId }
  -- try body
  let step : String × BuildState :=
    if TYPE_MAP_keys.contains objType = false then
      ("Unsupported object type: " ++ objType, st1)
    else if objExists = false then
      -- config["model"].objects.get raises DoesNotExist: except branch
      ("Failed to build " ++ pyUpper filetype ++ " cache for " ++ objType ++ ":" ++ objId
         ++ ": " ++ doesNotExistMsg objType,
       { st1 with tmpExists := false })
    else
      match pyOpenCheck "wb" (some "utf-8") with
      | Except.error e =>
          -- except branch: remove the temp file if present (it is not: the
          -- open raised before creating it), return the failure message
          ("Failed to build " ++ pyUpper filetype ++ " cache for " ++ objType ++ ":" ++ objId
             ++ ": " ++ e,
           { st1 with tmpExists := false })
      | Except.ok _ =>
          -- unreachable success path: stream into the temp file, then rename
          -- it onto the canonical path
          ("Successfully built " ++ pyUpper filetype ++ " cache for " ++ objType ++ ":" ++ objId,
           { st1 with tmpExists := false, canonicalExists := true })
  -- finally: release the build lock and clear the task id
  (step.1, { step.2 with lockHeld := false, taskId := none })

/-- C3 counterexample: the claim quantifies over any entity-type, but with an
    unrecognized entity type build_cache returns "Unsupported object type"
    from inside the try, before the open is ever attempted — not a 'Failed to
    build' message and not via the exception branch (the lock is still
    released in the finally block). -/
theorem build_cache_unsupported_type_counterexample :
    build_cache "bogus" "1" "lpf" "task-1" true ⟨true, none, false, false⟩
        = ("Unsupported object type: bogus", ⟨false, none, false, false⟩) ∧
      ("Unsupported object type: bogus" : String).data.take 15 ≠
        ("Failed to build" : String).data.take 15 := by
  exact ⟨by decide, by decide⟩

/-- C3 amended: for every invocation whose entity type is recognized and
    whose object exists, the open of the temporary cache file in binary mode
    with an encoding raises, so build_cache takes its exception branch: it
    returns the 'Failed to build' message rather than raising, never touches
    the canonical cache path, and its finally block releases the build lock
    and clears the recorded task id. -/
theorem build_cache_always_fails (objType objId filetype taskId : String)
    (st : BuildState) (hm : TYPE_MAP_keys.contains objType = true) :
    build_cache objType objId filetype taskId true st =
      ("Failed to build " ++ pyUpper filetype ++ " cache for " ++ objType ++ ":" ++ objId
         ++ ": " ++ pyOpenBinaryWithEncodingError,
       ⟨false, none, false, st.canonicalExists⟩) := by
  have hmem : objType ∈ TYPE_MAP_keys := by simpa using hm
  simp [build_cache, hmem, pyOpenCheck]

/-- C3 witness: the amended theorem at a concrete dataset build. -/
theorem build_cache_always_fails_witness :
    build_cache "dataset" "7" "tsv" "task-9" true ⟨true, some "old", true, false⟩
      = ("Failed to build TSV cache for dataset:7: binary mode doesn't take an encoding argument",
         ⟨false, none, false, false⟩) := by
  have h := build_cache_always_fails "dataset" "7" "tsv" "task-9"
    ⟨true, some "old", true, false⟩ (by decide)
  rw [h]
  decide

/-! ## Stream-and-tee finalization of stream_live when invoked with a
    cache_filepath (src/api/download_file.py, lines 148-170 and 445-458).
    The temporary file at `cache_filepath + '.tmp'` is created by the open at
    line 154 and receives every compressed chunk as it is produced; a
    mid-stream exception or cancellation (generator close) aborts chunk
    production.  The `finally` block at lines 454-458 closes the temp file
    and, since it exists, unconditionally renames it onto the canonical
    path — on the error path as well as on success. -/

inductive ChunkStep
  | chunk (s : String)
  | err
deriving DecidableEq, Repr

/-- Drive the chunk source: accumulated bytes written to the temp file so
    far, and whether production ended in an error. -/
def runChunks : List ChunkStep → String → String × Bool
  | [], acc => (acc, false)
  | ChunkStep.chunk s :: rest, acc => runChunks rest (acc ++ s)
  | ChunkStep.err :: _, acc => (acc, true)

structure TeeFiles where
  tmpContent : Option String
  canonicalContent : Option String
deriving DecidableEq, Repr

/-- stream_live with a cache_filepath: the temp file collects the produced
    chunks; the finally block renames whatever is in the temp file onto the
    canonical path, whether or not an error ended the stream; the error still
    propagates to the live output (second component). -/
def stream_live_tee (steps : List ChunkStep) : TeeFiles × Bool :=
  let r := runChunks steps ""
  (⟨none, some r.1⟩, r.2)

/-- C1: evaluating the code at the failing input.  A build that writes a
    temporary cache file and errors mid-stream after producing one chunk
    ends with the partial content published at the canonical cache path: the
    finally block renames the temp file instead of removing it, so a file at
    the canonical path is not necessarily a complete artifact.  (The general
    fact also holds: for every step list the canonical path ends up
    occupied.) -/
theorem stream_live_error_publishes_partial :
    stream_live_tee [ChunkStep.chunk "partial-gzip-bytes", ChunkStep.err]
        = (⟨none, some "partial-gzip-bytes"⟩, true) ∧
      (stream_live_tee [ChunkStep.chunk "partial-gzip-bytes", ChunkStep.err]).1.canonicalContent
        ≠ none := by
  exact ⟨by decide, by decide⟩

/-! ## Invalidation, throttling and deferred rebuilds
    (src/api/download_file.py, lines 84-92, 98-116, 509-580), abstracted to
    one (entity-type, id, format) key.  Time is in whole seconds; the redis
    values become typed fields: `lastRebuild` is the last-rebuild timestamp
    key, `pending` the pending-rebuild flag, `lockHeld`/`taskRecorded` the
    build lock and task-id keys.  `scheduledFires` records the absolute
    times at which deferred_rebuild jobs have been asked to fire
    (apply_async countdown), and `startedBuilds` the times at which
    build_cache.delay was submitted. -/

structure RebState where
  lockHeld : Bool
  taskRecorded : Bool
  pending : Bool
  lastRebuild : Option Nat
  cacheExists : Bool
  scheduledFires : List Nat
  startedBuilds : List Nat
deriving DecidableEq, Repr

/-- FileCache.should_throttle_rebuild (lines 84-92):
    true iff the last-rebuild key holds a time within the window before
    now. -/
def should_throttle_rebuild (now window : Nat) (st : RebState) : Bool :=
  match st.lastRebuild with
  | some l => if now < l + window then true else false
  | none => false

/-- The deferred delay of lines 527-530: max(300 - (now - last) + 10, 10);
    exact over Nat whenever now ≤ last + 310, which holds at the call site
    (reached only while throttled, i.e. now < last + 300). -/
def rebuild_delay (now l : Nat) : Nat := max (l + 310 - now) 10

/-- invalidate_and_rebuild_cache (lines 509-563): when throttled and not
    forced, mark pending and schedule a deferred job; otherwise cancel any
    recorded in-flight build, delete the cache file, clear the pending flag,
    record the rebuild time, and start a new build if the lock is
    obtainable. -/
def invalidate_and_rebuild_cache (now : Nat) (force : Bool) (st : RebState) : RebState :=
  if force = false ∧ should_throttle_rebuild now 300 st = true then
    let l := st.lastRebuild.getD 0
    { st with pending := true,
              scheduledFires := st.scheduledFires ++ [now + rebuild_delay now l] }
  else
    -- FileCache.cancel_current_build: acts only when a task id is recorded
    let st1 := if st.taskRecorded then { st with lockHeld := false, taskRecorded := false }
               else st
    -- FileCache.delete_cache; FileCache.clear_pending_rebuild;
    -- FileCache.record_rebuild_time
    let st2 := { st1 with cacheExists := false, pending := false, lastRebuild := some now }
    -- FileCache.acquire_build_lock then build_cache.delay
    if st2.lockHeld = false then
      { st2 with lockHeld := true, taskRecorded := true,
                 startedBuilds := st2.startedBuilds ++ [now] }
    else st2

/-- deferred_rebuild (lines 566-580): only acts when the pending flag is
    still set; forces the rebuild once the window has elapsed, else
    reschedules itself 60 seconds later. -/
def deferred_rebuild (now : Nat) (st : RebState) : RebState :=
  if st.pending then
    if should_throttle_rebuild now 300 st = false then
      invalidate_and_rebuild_cache now true st
    else { st with scheduledFires := st.scheduledFires ++ [now + 60] }
  else st

/-- build_cache's finally block (lines 504-506) as seen by the scheduler:
    the lock and task id are cleared; the last-rebuild timestamp is not
    touched. -/
def build_task_finished (st : RebState) : RebState :=
  { st with lockHeld := false, taskRecorded := false }

inductive RebEvent
  | invalidate (now : Nat)
  | fire (now : Nat)
  | finished
deriving DecidableEq, Repr

def runReb : List RebEvent → RebState → RebState
  | [], st => st
  | RebEvent.invalidate n :: es, st => runReb es (invalidate_and_rebuild_cache n false st)
  | RebEvent.fire n :: es, st => runReb es (deferred_rebuild n st)
  | RebEvent.finished :: es, st => runReb es (build_task_finished st)

/-- C6 counterexample: starting from a state with no recorded rebuild, one
    unthrottled invalidation at time 100 records the timestamp and merely
    submits the build, which is still in flight (task recorded); at time 150
    should_throttle_rebuild already returns true although no rebuild has
    completed, and completing the build never writes the timestamp.  The
    timestamp consulted by throttling is therefore recorded at rebuild
    initiation, not completion. -/
theorem should_throttle_records_at_start_counterexample :
    invalidate_and_rebuild_cache 100 false ⟨false, false, false, none, true, [], []⟩
        = ⟨true, true, false, some 100, false, [], [100]⟩ ∧
      should_throttle_rebuild 150 300
          (invalidate_and_rebuild_cache 100 false ⟨false, false, false, none, true, [], []⟩)
        = true ∧
      (invalidate_and_rebuild_cache 100 false
          ⟨false, false, false, none, true, [], []⟩).taskRecorded = true ∧
      (build_task_finished (invalidate_and_rebuild_cache 100 false
          ⟨false, false, false, none, true, [], []⟩)).lastRebuild = some 100 := by
  exact ⟨by decide, by decide, by decide, by decide⟩

/-- C6 amended: should_throttle_rebuild returns true iff the last-rebuild key
    holds a timestamp within the window before now; that timestamp is
    recorded by invalidate_and_rebuild_cache when a rebuild is initiated
    (before the build task runs), and the build task's own completion never
    records it. -/
theorem should_throttle_amended (now window : Nat) (st : RebState) :
    (should_throttle_rebuild now window st = true ↔
       ∃ l, st.lastRebuild = some l ∧ now < l + window) ∧
      (build_task_finished st).lastRebuild = st.lastRebuild ∧
      (should_throttle_rebuild now 300 st = false →
        (invalidate_and_rebuild_cache now false st).lastRebuild = some now) := by
  refine ⟨?_, rfl, ?_⟩
  · cases h : st.lastRebuild with
    | none => simp [should_throttle_rebuild, h]
    | some l =>
      by_cases hlt : now < l + window <;> simp [should_throttle_rebuild, h, hlt]
  · intro h
    unfold invalidate_and_rebuild_cache
    rw [if_neg (by simp [h])]
    by_cases ht : st.taskRecorded <;> by_cases hl : st.lockHeld <;> simp [ht, hl]

/-- C6 witness: the amended theorem's initiation clause at a concrete
    unthrottled invalidation. -/
theorem should_throttle_amended_witness :
    (invalidate_and_rebuild_cache 500 false
        ⟨false, false, false, some 100, true, [], []⟩).lastRebuild = some 500 :=
  (should_throttle_amended 500 300 ⟨false, false, false, some 100, true, [], []⟩).2.2
    (by decide)

theorem invalidate_throttled (now l : Nat) (st : RebState)
    (hL : st.lastRebuild = some l) (h : now < l + 300) :
    invalidate_and_rebuild_cache now false st =
      { st with pending := true, scheduledFires := st.scheduledFires ++ [l + 310] } := by
  have hthr : should_throttle_rebuild now 300 st = true := by
    simp [should_throttle_rebuild, hL, h]
  have hd : now + rebuild_delay now l = l + 310 := by
    have h10 : 10 ≤ l + 310 - now := by omega
    rw [rebuild_delay, Nat.max_eq_left h10]
    omega
  unfold invalidate_and_rebuild_cache
  rw [if_pos ⟨rfl, hthr⟩, hL]
  simp [hd]

theorem invalidate_forced_free (now : Nat) (st : RebState)
    (hl : st.lockHeld = false) (ht : st.taskRecorded = false) :
    invalidate_and_rebuild_cache now true st =
      { st with cacheExists := false, pending := false, lastRebuild := some now,
                lockHeld := true, taskRecorded := true,
                startedBuilds := st.startedBuilds ++ [now] } := by
  unfold invalidate_and_rebuild_cache
  rw [if_neg (by simp)]
  simp [ht, hl]

theorem deferred_fire_ready (now : Nat) (st : RebState)
    (hp : st.pending = true) (hthr : should_throttle_rebuild now 300 st = false) :
    deferred_rebuild now st = invalidate_and_rebuild_cache now true st := by
  simp [deferred_rebuild, hp, hthr]

theorem deferred_fire_no_pending (now : Nat) (st : RebState) (hp : st.pending = false) :
    deferred_rebuild now st = st := by
  simp [deferred_rebuild, hp]

/-- C4 counterexample: last rebuild recorded at time 0, two throttled
    invalidations at times 100 and 110; both deferred jobs are scheduled for
    time 310 and exactly one rebuild starts, at time 310 — which is earlier
    than 400 = first invalidation + throttle window, refuting the claim that
    the rebuild fires no earlier than the throttle window after the first
    invalidation (the window runs from the recorded last-rebuild time
    instead). -/
theorem deferred_rebuild_before_window_counterexample :
    100 + rebuild_delay 100 0 = 310 ∧
      110 + rebuild_delay 110 0 = 310 ∧
      (runReb [RebEvent.invalidate 100, RebEvent.invalidate 110,
               RebEvent.fire 310, RebEvent.fire 310]
          ⟨false, false, false, some 0, true, [], []⟩).startedBuilds = [310] ∧
      310 < 100 + 300 := by
  exact ⟨by decide, by decide, by decide, by decide⟩

/-- C4 amended: with the last rebuild recorded at time L, two invalidations
    both within the throttle window mark the pending flag and each schedule a
    deferred job with delay max(300 - elapsed + 10, 10), both therefore due
    at L + 310; the first deferred job to fire after the window elapses
    clears the pending flag and forces exactly one rebuild, any later
    deferred job finds the pending flag cleared and does nothing, and the
    rebuild fires no earlier than the throttle window after the recorded
    last-rebuild time (which may be earlier than the window after the first
    invalidation). -/
theorem throttled_invalidations_coalesce (L t1 t2 : Nat)
    (h12 : t1 ≤ t2) (h2 : t2 < L + 300) :
    t1 + rebuild_delay t1 L = L + 310 ∧
      t2 + rebuild_delay t2 L = L + 310 ∧
      runReb [RebEvent.invalidate t1, RebEvent.invalidate t2, RebEvent.fire (L + 310)]
          ⟨false, false, false, some L, true, [], []⟩ =
        ⟨true, true, false, some (L + 310), false, [L + 310, L + 310], [L + 310]⟩ ∧
      runReb [RebEvent.invalidate t1, RebEvent.invalidate t2,
              RebEvent.fire (L + 310), RebEvent.fire (L + 310)]
          ⟨false, false, false, some L, true, [], []⟩ =
        ⟨true, true, false, some (L + 310), false, [L + 310, L + 310], [L + 310]⟩ ∧
      L + 300 ≤ L + 310 := by
  have ht1 : t1 < L + 300 := Nat.lt_of_le_of_lt h12 h2
  have hd1 : t1 + rebuild_delay t1 L = L + 310 := by
    have h10 : 10 ≤ L + 310 - t1 := by omega
    rw [rebuild_delay, Nat.max_eq_left h10]
    omega
  have hd2 : t2 + rebuild_delay t2 L = L + 310 := by
    have h10 : 10 ≤ L + 310 - t2 := by omega
    rw [rebuild_delay, Nat.max_eq_left h10]
    omega
  have s1 : invalidate_and_rebuild_cache t1 false ⟨false, false, false, some L, true, [], []⟩
      = ⟨false, false, true, some L, true, [L + 310], []⟩ := by
    rw [invalidate_throttled t1 L _ rfl ht1]
    rfl
  have s2 : invalidate_and_rebuild_cache t2 false
        ⟨false, false, true, some L, true, [L + 310], []⟩
      = ⟨false, false, true, some L, true, [L + 310, L + 310], []⟩ := by
    rw [invalidate_throttled t2 L _ rfl h2]
    rfl
  have hnt : ¬ (L + 310 < L + 300) := by omega
  have hthr : should_throttle_rebuild (L + 310) 300
      (⟨false, false, true, some L, true, [L + 310, L + 310], []⟩ : RebState) = false := by
    simp [should_throttle_rebuild, hnt]
  have s3 : deferred_rebuild (L + 310) ⟨false, false, true, some L, true, [L + 310, L + 310], []⟩
      = ⟨true, true, false, some (L + 310), false, [L + 310, L + 310], [L + 310]⟩ := by
    rw [deferred_fire_ready _ _ rfl hthr, invalidate_forced_free _ _ rfl rfl]
    rfl
  have s4 : deferred_rebuild (L + 310)
        (⟨true, true, false, some (L + 310), false, [L + 310, L + 310], [L + 310]⟩ : RebState)
      = ⟨true, true, false, some (L + 310), false, [L + 310, L + 310], [L + 310]⟩ :=
    deferred_fire_no_pending _ _ rfl
  refine ⟨hd1, hd2, ?_, ?_, by omega⟩
  · simp [runReb, s1, s2, s3]
  · simp [runReb, s1, s2, s3, s4]

/-- C4 witness: the coalescing theorem at last rebuild 1000 and invalidations
    at 1100 and 1110. -/
theorem throttled_invalidations_coalesce_witness :
    runReb [RebEvent.invalidate 1100, RebEvent.invalidate 1110,
            RebEvent.fire (1000 + 310), RebEvent.fire (1000 + 310)]
        ⟨false, false, false, some 1000, true, [], []⟩ =
      ⟨true, true, false, some (1000 + 310), false, [1000 + 310, 1000 + 310], [1000 + 310]⟩ :=
  (throttled_invalidations_coalesce 1000 1100 1110 (by decide) (by decide)).2.2.2.1

/-! ## Build-lock mutual exclusion under concurrent requests
    (FileCache.is_building / acquire_build_lock, download_file.py lines
    53-61, and EntityFeatureView.get, views_entity.py lines 122-144).  The
    redis store is an association list; `SET key value EX ttl NX` is an
    atomic set-if-absent.  Each concurrent cache-miss request runs two store
    operations: an EXISTS check on the lock key, then — only if absent — a
    SET NX attempt; a request ends up streaming with a cache_filepath iff
    its SET NX returned true.  Interleavings are arbitrary schedules of
    single atomic store operations; nothing deletes the key during the
    window considered. -/

abbrev Store := List (String × String)

def redis_get (st : Store) (k : String) : Option String :=
  match st with
  | [] => none
  | (k', v) :: rest => if k' = k then some v else redis_get rest k

def redis_exists (st : Store) (k : String) : Bool :=
  (redis_get st k).isSome

def redis_setnx (st : Store) (k v : String) : Bool × Store :=
  if redis_exists st k then (false, st) else (true, (k, v) :: st)

/-- One request's progress: program counter 0 (before the is_building
    check), 1 (saw no lock, before the acquire attempt), 2 (dispatched). -/
structure Caller where
  pc : Nat
  sawBuilding : Bool
  acquired : Bool
deriving DecidableEq, Repr

def initCaller : Caller := ⟨0, false, false⟩

def stepCaller (k : String) (st : Store) (c : Caller) : Caller × Store :=
  match c.pc with
  | 0 =>
      if redis_exists st k then ({ c with pc := 2, sawBuilding := true }, st)
      else ({ c with pc := 1 }, st)
  | 1 =>
      let r := redis_setnx st k "building"
      ({ c with pc := 2, acquired := r.1 }, r.2)
  | _ => (c, st)

/-- Run a schedule: each entry names the caller that executes its next
    atomic operation. -/
def runSched (k : String) : List Nat → Store → List Caller → Store × List Caller
  | [], st, cs => (st, cs)
  | i :: sched, st, cs =>
      match cs[i]? with
      | some c =>
          let r := stepCaller k st c
          runSched k sched r.2 (cs.set i r.1)
      | none => runSched k sched st cs

/-- The dispatch of EntityFeatureView.get on a cache miss (views_entity.py
    lines 122-144): a caller that saw the lock held, or that failed the
    acquire, invokes stream_live without a cache_filepath; only a caller
    whose acquire succeeded passes the cache path to stream_live. -/
def dispatch_cache_filepath (cacheDir objType objId filetype : String) (c : Caller) :
    Option String :=
  if c.sawBuilding then none
  else if c.acquired then some (get_cache_path cacheDir objType objId filetype)
  else none

theorem countP_set_of_eq {α} (p : α → Bool) :
    ∀ (cs : List α) (i : Nat) (c c' : α), cs[i]? = some c → p c' = p c →
      (cs.set i c').countP p = cs.countP p := by
  intro cs
  induction cs with
  | nil => intro i c c' h _; simp at h
  | cons a l ih =>
    intro i c c' h hp
    cases i with
    | zero =>
      simp at h
      subst h
      simp [List.countP_cons, hp]
    | succ j =>
      simp at h
      simp [List.countP_cons, ih j c c' h hp]

theorem countP_set_true {α} (p : α → Bool) :
    ∀ (cs : List α) (i : Nat) (c c' : α), cs[i]? = some c → p c = false → p c' = true →
      (cs.set i c').countP p = cs.countP p + 1 := by
  intro cs
  induction cs with
  | nil => intro i c c' h _ _; simp at h
  | cons a l ih =>
    intro i c c' h hc hc'
    cases i with
    | zero =>
      simp at h
      subst h
      simp [List.countP_cons, hc, hc']
    | succ j =>
      simp at h
      simp [List.countP_cons, ih j c c' h hc hc']
      omega

/-- The mutual-exclusion invariant: unfinished callers have not acquired, at
    most one caller has acquired, and while the lock key is absent nobody
    has. -/
def LockInv (k : String) (st : Store) (cs : List Caller) : Prop :=
  (∀ c ∈ cs, c.pc ≤ 1 → c.acquired = false) ∧
    cs.countP (fun c => c.acquired) ≤ 1 ∧
    (redis_get st k = none → cs.countP (fun c => c.acquired) = 0)

theorem lockInv_step (k : String) (st : Store) (cs : List Caller) (i : Nat) (c : Caller)
    (hc : cs[i]? = some c) (h : LockInv k st cs) :
    LockInv k (stepCaller k st c).2 (cs.set i (stepCaller k st c).1) := by
  obtain ⟨h1, h2, h3⟩ := h
  have hmemc : c ∈ cs := by
    obtain ⟨hlt, hget⟩ := List.getElem?_eq_some_iff.mp hc
    exact hget ▸ List.getElem_mem hlt
  match hpc : c.pc with
  | 0 =>
    have hacq : c.acquired = false := h1 c hmemc (by omega)
    by_cases hex : redis_exists st k = true
    · have hs : stepCaller k st c = ({ c with pc := 2, sawBuilding := true }, st) := by
        simp [stepCaller, hpc, hex]
      rw [hs]
      show LockInv k st (cs.set i { c with pc := 2, sawBuilding := true })
      refine ⟨?_, ?_, ?_⟩
      · intro c'' hm hp
        rcases List.mem_or_eq_of_mem_set hm with hin | he
        · exact h1 c'' hin hp
        · rw [he] at hp
          simp at hp
      · rw [countP_set_of_eq (fun x : Caller => x.acquired) cs i c { c with pc := 2, sawBuilding := true } hc rfl]
        exact h2
      · intro hg
        rw [countP_set_of_eq (fun x : Caller => x.acquired) cs i c { c with pc := 2, sawBuilding := true } hc rfl]
        exact h3 hg
    · have hex' : redis_exists st k = false := by simpa using hex
      have hs : stepCaller k st c = ({ c with pc := 1 }, st) := by
        simp [stepCaller, hpc, hex']
      rw [hs]
      show LockInv k st (cs.set i { c with pc := 1 })
      refine ⟨?_, ?_, ?_⟩
      · intro c'' hm hp
        rcases List.mem_or_eq_of_mem_set hm with hin | he
        · exact h1 c'' hin hp
        · rw [he]
          exact hacq
      · rw [countP_set_of_eq (fun x : Caller => x.acquired) cs i c { c with pc := 1 } hc rfl]
        exact h2
      · intro hg
        rw [countP_set_of_eq (fun x : Caller => x.acquired) cs i c { c with pc := 1 } hc rfl]
        exact h3 hg
  | 1 =>
    have hacq : c.acquired = false := h1 c hmemc (by omega)
    by_cases hex : redis_exists st k = true
    · have hs : stepCaller k st c = ({ c with pc := 2, acquired := false }, st) := by
        simp [stepCaller, hpc, redis_setnx, hex]
      rw [hs]
      show LockInv k st (cs.set i { c with pc := 2, acquired := false })
      refine ⟨?_, ?_, ?_⟩
      · intro c'' hm hp
        rcases List.mem_or_eq_of_mem_set hm with hin | he
        · exact h1 c'' hin hp
        · rw [he]
      · rw [countP_set_of_eq (fun x : Caller => x.acquired) cs i c { c with pc := 2, acquired := false } hc hacq.symm]
        exact h2
      · intro hg
        exfalso
        simp [redis_exists, hg] at hex
    · have hex' : redis_exists st k = false := by simpa using hex
      have hg : redis_get st k = none := by
        cases hgv : redis_get st k with
        | none => rfl
        | some v => rw [redis_exists, hgv] at hex'; simp at hex'
      have hzero : cs.countP (fun c => c.acquired) = 0 := h3 hg
      have hs : stepCaller k st c =
          ({ c with pc := 2, acquired := true }, (k, "building") :: st) := by
        simp [stepCaller, hpc, redis_setnx, hex']
      rw [hs]
      show LockInv k ((k, "building") :: st) (cs.set i { c with pc := 2, acquired := true })
      refine ⟨?_, ?_, ?_⟩
      · intro c'' hm hp
        rcases List.mem_or_eq_of_mem_set hm with hin | he
        · exact h1 c'' hin hp
        · rw [he] at hp
          simp at hp
      · rw [countP_set_true (fun x : Caller => x.acquired) cs i c { c with pc := 2, acquired := true } hc hacq rfl, hzero]
      · intro hg'
        exfalso
        simp [redis_get] at hg'
  | n + 2 =>
    have hs : stepCaller k st c = (c, st) := by
      simp [stepCaller, hpc]
    rw [hs]
    show LockInv k st (cs.set i c)
    refine ⟨?_, ?_, ?_⟩
    · intro c'' hm hp
      rcases List.mem_or_eq_of_mem_set hm with hin | he
      · exact h1 c'' hin hp
      · rw [he] at hp ⊢
        exact h1 c hmemc hp
    · rw [countP_set_of_eq (fun x : Caller => x.acquired) cs i c c hc rfl]
      exact h2
    · intro hg
      rw [countP_set_of_eq (fun x : Caller => x.acquired) cs i c c hc rfl]
      exact h3 hg

theorem runSched_inv (k : String) :
    ∀ (sched : List Nat) (st : Store) (cs : List Caller), LockInv k st cs →
      LockInv k (runSched k sched st cs).1 (runSched k sched st cs).2 := by
  intro sched
  induction sched with
  | nil => intro st cs h; simpa [runSched] using h
  | cons i rest ih =>
    intro st cs h
    cases hc : cs[i]? with
    | none => simpa [runSched, hc] using ih st cs h
    | some c =>
      have hstep := lockInv_step k st cs i c hc h
      simpa [runSched, hc] using ih _ _ hstep

/-- C2: for every set of concurrent cache-miss requests on the same
    (entity-type, id, format) key and every interleaving of their atomic
    store operations, starting with the lock key absent: at most one request
    acquires the build lock (the atomic set-if-absent returns true for at
    most one caller while the key is absent), at most one request is
    dispatched to stream_live with a cache_filepath, and every request that
    did not acquire — whether it observed is_building true or failed
    acquire_build_lock — is dispatched to stream_live without a
    cache_filepath, so only the lock holder ever writes the cache file. -/
theorem build_lock_mutual_exclusion (cacheDir objType objId filetype : String)
    (sched : List Nat) (n : Nat) (st0 : Store)
    (_h0 : redis_get st0 (get_build_lock_key objType objId filetype) = none) :
    ((runSched (get_build_lock_key objType objId filetype) sched st0
        (List.replicate n initCaller)).2.countP (fun c => c.acquired)) ≤ 1 ∧
      ((runSched (get_build_lock_key objType objId filetype) sched st0
          (List.replicate n initCaller)).2.countP
        (fun c => (dispatch_cache_filepath cacheDir objType objId filetype c).isSome)) ≤ 1 ∧
      ∀ c ∈ (runSched (get_build_lock_key objType objId filetype) sched st0
          (List.replicate n initCaller)).2, c.acquired = false →
        dispatch_cache_filepath cacheDir objType objId filetype c = none := by
  have hrep : (List.replicate n initCaller).countP (fun c : Caller => c.acquired) = 0 := by
    rw [List.countP_eq_zero]
    intro a ha
    rw [List.eq_of_mem_replicate ha]
    simp [initCaller]
  have hinv0 : LockInv (get_build_lock_key objType objId filetype) st0
      (List.replicate n initCaller) := by
    refine ⟨?_, ?_, ?_⟩
    · intro c hm _
      rw [List.eq_of_mem_replicate hm]
      rfl
    · omega
    · intro _
      exact hrep
  obtain ⟨g1, g2, g3⟩ :=
    runSched_inv (get_build_lock_key objType objId filetype) sched st0
      (List.replicate n initCaller) hinv0
  refine ⟨g2, ?_, ?_⟩
  · refine Nat.le_trans (List.countP_mono_left ?_) g2
    intro c _ hp
    by_cases hsb : c.sawBuilding <;> by_cases hacq : c.acquired <;>
      simp [dispatch_cache_filepath, hsb, hacq] at hp ⊢
  · intro c _ hacq
    simp [dispatch_cache_filepath, hacq]

/-- C2 witness: two callers, both of which pass the is_building check before
    either attempts the acquire; the mutual-exclusion bound follows from the
    theorem at this concrete schedule. -/
theorem build_lock_mutual_exclusion_witness :
    ((runSched (get_build_lock_key "dataset" "7" "tsv") [0, 1, 0, 1] []
        (List.replicate 2 initCaller)).2.countP (fun c => c.acquired)) ≤ 1 :=
  (build_lock_mutual_exclusion "/media/downloads" "dataset" "7" "tsv" [0, 1, 0, 1] 2 []
    rfl).1

end WHG
